import Mathlib

/-!
Verification of the AgriAI prototype's logical core (src/typescript.jsx):
the mocked yield predictor `fakePredictAPI` (lines 79-89) and the
rule-based `generateRecommendations` (lines 91-101).  Numbers are modelled
as exact rationals; JavaScript's `toFixed(2)` followed by unary `+` is
modelled as rounding to the nearest multiple of 1/100, ties away from the
floor (ECMAScript picks the larger candidate integer, matching Mathlib's
`round`).
-/

namespace AgriAI

/-- Soil metrics record, as in `mockSoil` / the `soil` field of the
prediction features (source line 60). -/
structure Soil where
  ph : ℚ
  organicMatterPct : ℚ
  moisturePct : ℚ
  deriving DecidableEq

/-- Weather record, as in `mockWeather` (source line 56). -/
structure Weather where
  tempC : ℚ
  rainNext7DaysMm : ℚ
  condition : String
  deriving DecidableEq

/-- The argument record of `fakePredictAPI` (source line 64). -/
structure Features where
  crop : String
  areaHa : ℚ
  soil : Soil
  weather : Weather
  deriving DecidableEq

/-- The record returned by `fakePredictAPI` (source line 88). -/
structure YieldEstimate where
  yieldTons : ℚ
  confidence : ℚ
  deriving DecidableEq

/-- One advisory entry pushed by `generateRecommendations`
(source lines 94-99). -/
structure Advisory where
  category : String
  msg : String
  deriving DecidableEq

/-- The lookup table `baseByCrop` (source line 82). -/
def baseByCrop : List (String × ℚ) :=
  [("wheat", 3.2), ("rice", 4.0), ("maize", 5.0)]

/-- `baseByCrop[features.crop] || 2.5` (source line 83): the table lookup
with fallback 2.5 for any crop not in the table. -/
def base (crop : String) : ℚ :=
  (baseByCrop.lookup crop).getD 2.5

/-- `Math.max(0.8, Math.min(1.2, 0.5 + moisturePct/50))` (source line 84). -/
def moistureFactor (moisturePct : ℚ) : ℚ :=
  max 0.8 (min 1.2 (0.5 + moisturePct / 50))

/-- `1 - Math.abs(6.5 - ph)/10` (source line 85). -/
def phFactor (ph : ℚ) : ℚ :=
  1 - |6.5 - ph| / 10

/-- `1 - Math.min(0.3, Math.abs(tempC - 25)/50)` (source line 86). -/
def weatherFactor (tempC : ℚ) : ℚ :=
  1 - min 0.3 (|tempC - 25| / 50)

/-- `+x.toFixed(2)`: round to two decimal places, ties toward the larger
candidate, as ECMAScript's `toFixed` specifies. -/
def round2 (x : ℚ) : ℚ :=
  (round (x * 100) : ℚ) / 100

/-- The mocked prediction `fakePredictAPI` (source lines 79-89), with the
simulated latency dropped: the returned value is
`{yieldTons: +(base*moistureFactor*phFactor*weatherFactor*areaHa).toFixed(2),
confidence: 0.82}`. -/
def fakePredictAPI (features : Features) : YieldEstimate :=
  { yieldTons := round2 (base features.crop * moistureFactor features.soil.moisturePct *
      phFactor features.soil.ph * weatherFactor features.weather.tempC * features.areaHa)
    confidence := 0.82 }

/-- Irrigation advisory pushed when `soil.moisturePct < 20` (source line 94). -/
def irrigationShort : Advisory :=
  ⟨"irrigation", "Apply 20mm irrigation in next 3 days"⟩

/-- Irrigation advisory pushed otherwise (source line 95). -/
def irrigationOk : Advisory :=
  ⟨"irrigation", "Soil moisture sufficient for 5 days"⟩

/-- Fertilizer advisory pushed when `soil.organicMatterPct < 2`
(source line 97). -/
def fertilizerRec : Advisory :=
  ⟨"fertilizer", "Apply 30kg/ha organic compost"⟩

/-- Pest advisory always pushed last (source line 99). -/
def pestRec : Advisory :=
  ⟨"pest", "Monitor for aphids — set up yellow sticky traps"⟩

/-- `generateRecommendations(crop, soil, weather)` (source lines 91-101):
pushes exactly one irrigation entry, conditionally one fertilizer entry,
then always the pest entry. -/
def generateRecommendations (crop : String) (soil : Soil) (weather : Weather) :
    List Advisory :=
  (if soil.moisturePct < 20 then [irrigationShort] else [irrigationOk]) ++
    (if soil.organicMatterPct < 2 then [fertilizerRec] else []) ++
    [pestRec]

/-! Specification-side definitions, written from the spec's words, used to
state the refinement claim about the yield formula. -/

/-- `clamp(x, lower, upper)` as the spec words it. -/
def clamp (x lo hi : ℚ) : ℚ :=
  max lo (min x hi)

/-- Base yield as the spec words it: wheat=3.2, rice=4.0, maize=5.0, any
other crop 2.5. -/
def specBase (crop : String) : ℚ :=
  if crop = "wheat" then 3.2
  else if crop = "rice" then 4.0
  else if crop = "maize" then 5.0
  else 2.5

/-- The estimate as the spec words it: yieldTons rounded to two decimals
from base times the three factors times the area, confidence 0.82. -/
def estimateSpec (crop : String) (areaHectares : ℚ) (soil : Soil)
    (weather : Weather) : YieldEstimate :=
  { yieldTons := round2 (specBase crop *
      clamp (0.5 + soil.moisturePct / 50) 0.8 1.2 *
      (1 - |6.5 - soil.ph| / 10) *
      (1 - min 0.3 (|weather.tempC - 25| / 50)) * areaHectares)
    confidence := 0.82 }

/-! Helper lemmas. -/

/-- Rounding is monotone. -/
lemma round_mono {x y : ℚ} (h : x ≤ y) : round x ≤ round y := by
  rw [round_eq, round_eq]
  exact Int.floor_le_floor (by linarith)

/-- `round2` is monotone. -/
lemma round2_mono {x y : ℚ} (h : x ≤ y) : round2 x ≤ round2 y := by
  unfold round2
  have := round_mono (x := x * 100) (y := y * 100) (by nlinarith)
  have : ((round (x * 100) : ℚ)) ≤ ((round (y * 100) : ℚ)) := by exact_mod_cast this
  linarith

/-- `round2` preserves nonnegativity. -/
lemma round2_nonneg {x : ℚ} (h : 0 ≤ x) : 0 ≤ round2 x := by
  have h0 : round2 0 ≤ round2 x := round2_mono h
  simpa [round2] using h0

/-- The crop base yield agrees with the spec's case split. -/
lemma base_eq_specBase (crop : String) : base crop = specBase crop := by
  unfold base specBase baseByCrop
  by_cases h1 : crop = "wheat"
  · simp [h1, List.lookup]
  · by_cases h2 : crop = "rice"
    · simp [h2, List.lookup]
    · by_cases h3 : crop = "maize"
      · simp [h3, List.lookup]
      · have b1 : (crop == "wheat") = false := beq_eq_false_iff_ne.mpr h1
        have b2 : (crop == "rice") = false := beq_eq_false_iff_ne.mpr h2
        have b3 : (crop == "maize") = false := beq_eq_false_iff_ne.mpr h3
        simp [List.lookup, b1, b2, b3, h1, h2, h3]

/-- The crop base yield is positive for every crop string. -/
lemma base_pos (crop : String) : 0 < base crop := by
  rw [base_eq_specBase]
  unfold specBase
  split_ifs <;> norm_num

/-- The moisture factor is at least 0.8. -/
lemma moistureFactor_ge (m : ℚ) : (0.8 : ℚ) ≤ moistureFactor m :=
  le_max_left _ _

/-- The weather factor is at least 0.7. -/
lemma weatherFactor_ge (t : ℚ) : (0.7 : ℚ) ≤ weatherFactor t := by
  unfold weatherFactor
  have h := min_le_left (0.3 : ℚ) (|t - 25| / 50)
  linarith

/-- Evaluation rule for `round2` at a concrete value: if the integer `z`
brackets `x * 100 + 1/2` from below within one, then `round2 x = z / 100`. -/
lemma round2_eq_div {x : ℚ} {z : ℤ} (h1 : (z : ℚ) ≤ x * 100 + 1 / 2)
    (h2 : x * 100 + 1 / 2 < z + 1) : round2 x = (z : ℚ) / 100 := by
  unfold round2
  rw [round_eq]
  rw [Int.floor_eq_iff.mpr ⟨h1, h2⟩]

/-- Evaluation of the predictor at the spec's worked wheat example:
the exact product is 3.2 * 0.98 * 1 * 0.92 * 1 = 2.88512, which rounds to
2.89 at two decimals. -/
lemma wheatExample_eval :
    fakePredictAPI ⟨"wheat", 1, ⟨6.5, 1.8, 24⟩, ⟨29, 12, "Partly Cloudy"⟩⟩ =
      ⟨2.89, 0.82⟩ := by
  have harg : base "wheat" * moistureFactor 24 * phFactor 6.5 *
      weatherFactor 29 * 1 = 288512 / 100000 := by
    rw [base_eq_specBase]
    simp only [specBase, moistureFactor, phFactor, weatherFactor]
    norm_num [min_def, max_def, abs_of_nonneg, abs_of_nonpos]
  show YieldEstimate.mk (round2 (base "wheat" * moistureFactor 24 *
    phFactor 6.5 * weatherFactor 29 * 1)) 0.82 = ⟨2.89, 0.82⟩
  rw [harg, round2_eq_div (z := 289) (by norm_num) (by norm_num)]
  norm_num [YieldEstimate.mk.injEq]

/-! Claim theorems. -/

/-- C1: for every crop, area, soil sample and weather snapshot,
`fakePredictAPI` returns exactly the spec's estimate: yieldTons is
round(base * moistureFactor * phFactor * weatherFactor * area, 2 decimals)
with base 3.2/4.0/5.0 for wheat/rice/maize and 2.5 otherwise,
moistureFactor clamp(0.5 + moisture/50, 0.8, 1.2), phFactor
1 - abs(6.5 - ph)/10 unclamped, weatherFactor
1 - min(0.3, abs(temp - 25)/50), and confidence is the constant 0.82. -/
theorem estimate_matches_spec_formula (f : Features) :
    fakePredictAPI f = estimateSpec f.crop f.areaHa f.soil f.weather := by
  unfold fakePredictAPI estimateSpec moistureFactor phFactor weatherFactor clamp
  rw [base_eq_specBase, min_comm (1.2 : ℚ)]

/-- C2 counterexample: at the spec's worked example (wheat, 1 ha, ph 6.5,
organic matter 1.8, moisture 24, temperature 29) the code yields 2.89, not
the 2.88 the claim states: 3.2 * 0.98 * 0.92 = 2.88512 rounds up at the
second decimal. -/
theorem wheat_example_not_288 :
    (fakePredictAPI ⟨"wheat", 1, ⟨6.5, 1.8, 24⟩,
      ⟨29, 12, "Partly Cloudy"⟩⟩).yieldTons ≠ 2.88 := by
  rw [wheatExample_eval]
  norm_num

/-- C2 amended: for crop wheat, area 1, soil ph 6.5 / organic matter 1.8 /
moisture 24, and temperature 29, the estimate is yieldTons 2.89 (not 2.88)
and confidence 0.82. -/
theorem wheat_example_value :
    fakePredictAPI ⟨"wheat", 1, ⟨6.5, 1.8, 24⟩, ⟨29, 12, "Partly Cloudy"⟩⟩ =
      ⟨2.89, 0.82⟩ :=
  wheatExample_eval

/-- C3: for every input, the recommendation list has between 2 and 3
entries, ends with the unique pest advisory, and its category sequence is
either irrigation-pest or irrigation-fertilizer-pest. -/
theorem recommendations_shape (crop : String) (soil : Soil) (weather : Weather) :
    (2 ≤ (generateRecommendations crop soil weather).length ∧
      (generateRecommendations crop soil weather).length ≤ 3) ∧
    (generateRecommendations crop soil weather).getLast? = some pestRec ∧
    ((generateRecommendations crop soil weather).filter
      (fun a => a.category == "pest")).length = 1 ∧
    ((generateRecommendations crop soil weather).map Advisory.category =
        ["irrigation", "pest"] ∨
      (generateRecommendations crop soil weather).map Advisory.category =
        ["irrigation", "fertilizer", "pest"]) := by
  unfold generateRecommendations
  split_ifs <;> simp [irrigationShort, irrigationOk, fertilizerRec, pestRec]

/-- C4: every recommendation list has exactly one irrigation entry, at the
head; it is the shortage message exactly when moisturePct < 20 and the
sufficiency message otherwise; in particular moisture 19 gives the shortage
message and moisture 20 the sufficiency message. -/
theorem irrigation_rule (crop : String) (soil : Soil) (weather : Weather) :
    ((generateRecommendations crop soil weather).filter
      (fun a => a.category == "irrigation")).length = 1 ∧
    ((generateRecommendations crop soil weather).head? = some irrigationShort ↔
      soil.moisturePct < 20) ∧
    ((generateRecommendations crop soil weather).head? = some irrigationOk ↔
      ¬ soil.moisturePct < 20) ∧
    (∀ ph om : ℚ, (generateRecommendations crop ⟨ph, om, 19⟩ weather).head? =
      some irrigationShort) ∧
    (∀ ph om : ℚ, (generateRecommendations crop ⟨ph, om, 20⟩ weather).head? =
      some irrigationOk) := by
  refine ⟨?_, ?_, ?_, ?_, ?_⟩
  · unfold generateRecommendations
    split_ifs <;> simp [irrigationShort, irrigationOk, fertilizerRec, pestRec]
  · unfold generateRecommendations
    split_ifs with h1 h2 <;> simp [irrigationShort, irrigationOk, h1]
  · unfold generateRecommendations
    split_ifs with h1 h2 <;> simp [irrigationShort, irrigationOk, h1]
  · intro ph om
    norm_num [generateRecommendations]
  · intro ph om
    norm_num [generateRecommendations]

/-- C5: the recommendation list contains the fertilizer advisory exactly
when organicMatterPct < 2 (strict), never more than one fertilizer entry,
and at organicMatterPct exactly 2 no fertilizer entry is present. -/
theorem fertilizer_rule (crop : String) (soil : Soil) (weather : Weather) :
    (fertilizerRec ∈ generateRecommendations crop soil weather ↔
      soil.organicMatterPct < 2) ∧
    ((generateRecommendations crop soil weather).filter
      (fun a => a.category == "fertilizer")).length =
      (if soil.organicMatterPct < 2 then 1 else 0) ∧
    (∀ ph m : ℚ, ((generateRecommendations crop ⟨ph, 2, m⟩ weather).filter
      (fun a => a.category == "fertilizer")).length = 0) := by
  refine ⟨?_, ?_, ?_⟩
  · unfold generateRecommendations
    split_ifs <;> simp_all [irrigationShort, irrigationOk, fertilizerRec, pestRec]
  · unfold generateRecommendations
    split_ifs <;> simp_all [irrigationShort, irrigationOk, fertilizerRec, pestRec]
  · intro ph m
    norm_num [generateRecommendations]
    split_ifs <;> simp [irrigationShort, irrigationOk, fertilizerRec, pestRec]

/-- C6 counterexample: yieldTons is not nonnegative for every input: at
ph 20 the unclamped ph factor is -0.35, and for wheat, 1 ha, moisture 24,
temperature 25 the estimate is -1.10. -/
theorem yield_negative_at_extreme_ph :
    ¬ (0 ≤ (fakePredictAPI ⟨"wheat", 1, ⟨20, 1.8, 24⟩,
      ⟨25, 12, "Clear"⟩⟩).yieldTons) := by
  have harg : base "wheat" * moistureFactor 24 * phFactor 20 *
      weatherFactor 25 * 1 = -10976 / 10000 := by
    rw [base_eq_specBase]
    simp only [specBase, moistureFactor, phFactor, weatherFactor]
    norm_num [min_def, max_def, abs_of_nonneg, abs_of_nonpos]
  show ¬ (0 ≤ round2 (base "wheat" * moistureFactor 24 * phFactor 20 *
    weatherFactor 25 * 1))
  rw [harg, round2_eq_div (z := -110) (by norm_num) (by norm_num)]
  norm_num

/-- C6 amended: confidence always lies in the unit interval, for every
input without restriction; and yieldTons is nonnegative whenever the
unclamped ph factor is nonnegative (that is, abs(6.5 - ph) is at most 10)
and the area is nonnegative. -/
theorem estimate_bounds (crop : String) (area : ℚ) (soil : Soil)
    (weather : Weather) :
    0 ≤ (fakePredictAPI ⟨crop, area, soil, weather⟩).confidence ∧
    (fakePredictAPI ⟨crop, area, soil, weather⟩).confidence ≤ 1 ∧
    (0 ≤ phFactor soil.ph → 0 ≤ area →
      0 ≤ (fakePredictAPI ⟨crop, area, soil, weather⟩).yieldTons) := by
  refine ⟨?_, ?_, ?_⟩
  · show (0 : ℚ) ≤ 0.82
    norm_num
  · show (0.82 : ℚ) ≤ 1
    norm_num
  · intro hph harea
    show 0 ≤ round2 (base crop * moistureFactor soil.moisturePct *
      phFactor soil.ph * weatherFactor weather.tempC * area)
    apply round2_nonneg
    have hb := (base_pos crop).le
    have hm : (0 : ℚ) ≤ moistureFactor soil.moisturePct :=
      le_trans (by norm_num) (moistureFactor_ge _)
    have hw : (0 : ℚ) ≤ weatherFactor weather.tempC :=
      le_trans (by norm_num) (weatherFactor_ge _)
    exact mul_nonneg (mul_nonneg (mul_nonneg (mul_nonneg hb hm) hph) hw) harea

/-- C6 witness: the amended bounds applied at the concrete wheat input
with ph 6.5 and area 1, the yield-sign hypotheses discharged there. -/
theorem estimate_bounds_witness :
    0 ≤ phFactor 6.5 ∧ 0 ≤ (1 : ℚ) ∧
    (0 ≤ (fakePredictAPI ⟨"wheat", 1, ⟨6.5, 1.8, 24⟩,
        ⟨25, 12, "Clear"⟩⟩).confidence ∧
      (fakePredictAPI ⟨"wheat", 1, ⟨6.5, 1.8, 24⟩,
        ⟨25, 12, "Clear"⟩⟩).confidence ≤ 1 ∧
      0 ≤ (fakePredictAPI ⟨"wheat", 1, ⟨6.5, 1.8, 24⟩,
        ⟨25, 12, "Clear"⟩⟩).yieldTons) :=
  ⟨by simp [phFactor], by simp,
    (estimate_bounds "wheat" 1 ⟨6.5, 1.8, 24⟩ ⟨25, 12, "Clear"⟩).1,
    (estimate_bounds "wheat" 1 ⟨6.5, 1.8, 24⟩ ⟨25, 12, "Clear"⟩).2.1,
    (estimate_bounds "wheat" 1 ⟨6.5, 1.8, 24⟩ ⟨25, 12, "Clear"⟩).2.2
      (by simp [phFactor]) (by simp)⟩

/-- C7: the weather factor used by the estimate is at least 0.7 for every
temperature. -/
theorem weather_factor_lower_bound (t : ℚ) : (0.7 : ℚ) ≤ weatherFactor t :=
  weatherFactor_ge t

/-- C8: the recommendation list depends only on the soil argument: any two
calls with equal soil agree, whatever the crop and weather arguments. -/
theorem recommendations_ignore_crop_weather (c1 c2 : String) (soil : Soil)
    (w1 w2 : Weather) :
    generateRecommendations c1 soil w1 = generateRecommendations c2 soil w2 :=
  rfl

/-- C9: both functions are total: for every crop string, every area
(including nonpositive ones), every soil sample and weather snapshot, the
estimate is the defining value of the formula (with constant confidence
0.82) and the recommendation list is nonempty; no error branch exists. -/
theorem estimator_and_recommender_total (crop : String) (area : ℚ)
    (soil : Soil) (weather : Weather) :
    fakePredictAPI ⟨crop, area, soil, weather⟩ =
      ⟨round2 (base crop * moistureFactor soil.moisturePct *
        phFactor soil.ph * weatherFactor weather.tempC * area), 0.82⟩ ∧
    generateRecommendations crop soil weather ≠ [] := by
  refine ⟨rfl, ?_⟩
  unfold generateRecommendations
  split_ifs <;> simp

/-- C10: with the ph factor nonnegative, yieldTons is monotonically
nondecreasing in the area: rounding to two decimals preserves the
monotonicity of the linear-in-area product. -/
theorem yield_monotone_in_area (crop : String) (soil : Soil)
    (weather : Weather) (a1 a2 : ℚ) (hph : 0 ≤ phFactor soil.ph)
    (h12 : a1 ≤ a2) :
    (fakePredictAPI ⟨crop, a1, soil, weather⟩).yieldTons ≤
    (fakePredictAPI ⟨crop, a2, soil, weather⟩).yieldTons := by
  show round2 (base crop * moistureFactor soil.moisturePct *
      phFactor soil.ph * weatherFactor weather.tempC * a1) ≤
    round2 (base crop * moistureFactor soil.moisturePct *
      phFactor soil.ph * weatherFactor weather.tempC * a2)
  apply round2_mono
  have hc : 0 ≤ base crop * moistureFactor soil.moisturePct *
      phFactor soil.ph * weatherFactor weather.tempC :=
    mul_nonneg (mul_nonneg (mul_nonneg (base_pos crop).le
      (le_trans (by norm_num) (moistureFactor_ge _))) hph)
      (le_trans (by norm_num) (weatherFactor_ge _))
  exact mul_le_mul_of_nonneg_left h12 hc

/-- C10 witness: the monotonicity theorem applied at wheat, ph 6.5, areas
1 and 2. -/
theorem yield_monotone_in_area_witness :
    0 ≤ phFactor 6.5 ∧ (1 : ℚ) ≤ 2 ∧
    (fakePredictAPI ⟨"wheat", 1, ⟨6.5, 1.8, 24⟩,
      ⟨29, 12, "Partly Cloudy"⟩⟩).yieldTons ≤
    (fakePredictAPI ⟨"wheat", 2, ⟨6.5, 1.8, 24⟩,
      ⟨29, 12, "Partly Cloudy"⟩⟩).yieldTons :=
  ⟨by simp [phFactor], one_le_two,
    yield_monotone_in_area "wheat" ⟨6.5, 1.8, 24⟩ ⟨29, 12, "Partly Cloudy"⟩
      1 2 (by simp [phFactor]) one_le_two⟩

end AgriAI
